import Mathlib

/-!
# doogie: the `CefWidget` binding layer (`src/cef_widget.cc`)

A shallow embedding of the widget that wraps an embedded browser engine.

* Engine-owned objects (browsers, handlers, widgets) are represented by their
  identity; a `CefRefPtr` that may be null is an `Option`.
* Every call into the embedded engine, every emitted toolkit signal and every
  debug log line is recorded, in program order, in a list of `Effect`s.
  The accessor chains `browser_->GetHost()->m(..)` and
  `browser_->GetMainFrame()->m(..)` are recorded as the call `m` together with
  the receiver it is invoked on.
* Values the engine or the toolkit reports (the frame URL, the zoom level, the
  PNG rendering of an image, the result of the pixmap decoder) are parameters.
* `QString`, `std::string` and `CefString` are all text; the conversions
  between them are the identity on a `String`.
* `double` values are only passed through, never computed with; they are
  represented by their IEEE-754 bit pattern.
-/

namespace doogie

/-! ## Data model -/

/-- Identity of an engine-owned browser (the pointee of a non-null `CefRefPtr<CefBrowser>`). -/
abbrev BrowserId := Nat

/-- Identity of a `CefHandler` object. -/
abbrev HandlerId := Nat

/-- Identity of a widget (`this`, or the `CefBaseWidget*` passed to `ShowDevTools`). -/
abbrev WidgetId := Nat

/-- A C++ `double`, by its bit pattern. -/
structure Double where
  bits : Nat
deriving DecidableEq, Repr

/-- The literal `0.0`. -/
def Double.zero : Double := ⟨0⟩

/-- Qt `QPoint`. -/
structure QPoint where
  x : Int
  y : Int
deriving DecidableEq, Repr

/-- Engine `CefPoint`. -/
structure CefPoint where
  x : Int
  y : Int
deriving DecidableEq, Repr

/-- A default-constructed `CefBrowserSettings`. -/
inductive CefBrowserSettings where
  | default
deriving DecidableEq, Repr

/-- The `CefBaseWidget*` handed to `ShowDevTools`: its identity and what its
`WindowInfo()` reports. -/
structure CefBaseWidget where
  id : WidgetId
  WindowInfo : Nat
deriving DecidableEq, Repr

/-- Class `CefWidget::FaviconDownloadCallback`, constructed from the widget it reports to. -/
structure FaviconDownloadCallback where
  cef_widg_ : WidgetId
deriving DecidableEq, Repr

/-- Qt `QPixmap`, by the identity of the decoded picture. -/
structure QPixmap where
  picture : Nat
deriving DecidableEq, Repr

/-- Qt `QIcon`: the pixmaps added to it. A default-constructed icon has none. -/
structure QIcon where
  pixmaps : List QPixmap
deriving DecidableEq, Repr

/-- Source text `QIcon icon;` -/
def QIcon.empty : QIcon := ⟨[]⟩

/-- Source text `icon.addPixmap(pixmap)` -/
def QIcon.addPixmap (icon : QIcon) (pixmap : QPixmap) : QIcon :=
  ⟨icon.pixmaps ++ [pixmap]⟩

/-- The object a method of the engine is invoked on, reached from a browser handle. -/
inductive Receiver where
  | browser
  | host
  | mainFrame
deriving DecidableEq, Repr

/-- Methods of the embedded engine that the widget calls, with their arguments. -/
inductive Method where
  | LoadURL (url : String)
  | GetURL
  | CloseBrowser (force_close : Bool)
  | ExecuteJavaScript (code : String) (script_url : String) (start_line : Int)
  | Reload
  | ReloadIgnoreCache
  | StopLoad
  | Print
  | Find (identifier : Int) (searchText : String) (forward matchCase findNext : Bool)
  | StopFinding (clearSelection : Bool)
  | ShowDevTools (windowInfo : Nat) (client : HandlerId)
      (settings : CefBrowserSettings) (inspect_element_at : CefPoint)
  | CloseDevTools
  | GetZoomLevel
  | SetZoomLevel (zoomLevel : Double)
  | GetNavigationEntries (current_only : Bool)
  | SendFocusEvent (setFocus : Bool)
  | DownloadImage (image_url : String) (is_favicon : Bool) (max_image_size : Int)
      (bypass_cache : Bool) (callback : FaviconDownloadCallback)
deriving DecidableEq, Repr

/-- Signals of `CefWidget` emitted by the code under study. -/
inductive Signal where
  | FaviconChanged (icon : QIcon)
  | FindResult (count : Int) (index : Int)
  | DevToolsLoadComplete
  | DevToolsClosed
deriving DecidableEq, Repr

/-- One observable step of the widget code. -/
inductive Effect where
  /-- a call of an engine method on a browser, its host or its main frame -/
  | engine (browser : BrowserId) (via : Receiver) (m : Method)
  /-- Source text `emit widget->sig(..)`, on the widget that owns the signal -/
  | emit (widget : WidgetId) (sig : Signal)
  /-- Source text `qDebug(msg)` -/
  | qDebug (msg : String)
  /-- the base-class call `QWidget::focusInEvent` (true) or `QWidget::focusOutEvent` (false) -/
  | qwidgetFocus (focusIn : Bool)
  /-- Source text `image->GetAsPNG(1.0f, true, width, height)` -/
  | GetAsPNG
  /-- Source text `png->GetSize()` -/
  | GetSize
  /-- Source text `std::vector<uchar> data(size)` -/
  | vectorNew (size : Nat)
  /-- Source text `data[index]` on a vector that holds `length` elements -/
  | vectorAt (index : Nat) (length : Nat)
  /-- Source text `png->GetData(buffer, buffer_size, data_offset)` -/
  | GetData (buffer_size : Nat) (data_offset : Nat)
  /-- Source text `pixmap.loadFromData(buf, len, "PNG")` -/
  | loadFromData (len : Nat) (format : String)
deriving DecidableEq, Repr

/-- Whether an effect is a call into the embedded engine on a browser. -/
def Effect.isEngineCall : Effect → Bool
  | .engine _ _ _ => true
  | _ => false

/-- The engine calls of a trace. -/
def engineCalls (t : List Effect) : List Effect := t.filter Effect.isEngineCall

/-- Whether an effect is an emitted signal. -/
def Effect.isEmit : Effect → Bool
  | .emit _ _ => true
  | _ => false

/-- The signals emitted in a trace, in order. -/
def emitted : List Effect → List Signal
  | [] => []
  | .emit _ sig :: t => sig :: emitted t
  | _ :: t => emitted t

/-- The signals of the dev-tools `CefHandler` that `ShowDevTools` connects. -/
inductive HandlerSignal where
  | AfterCreated
  | LoadEnd
  | Closed
deriving DecidableEq, Repr

/-- A connection made by `connect(sender, signal, [this](..) {..})`; the slot is
the lambda that `ShowDevTools` attaches to that signal. -/
structure Connection where
  sender : HandlerId
  signal : HandlerSignal
  receiver : WidgetId
deriving DecidableEq, Repr

/-- The state of a `CefWidget`: its members, and the toolkit bookkeeping the code
changes (connections, keyboard forwarding, handler objects allocated so far,
receivers connected to `FaviconChanged`). -/
structure CefWidget where
  self : WidgetId
  handler_ : HandlerId
  browser_ : Option BrowserId
  dev_tools_handler_ : Option HandlerId
  dev_tools_browser_ : Option BrowserId
  connections : List Connection
  keyboard_forwards : List (WidgetId × HandlerId)
  handlers_created : Nat
  favicon_receivers : Nat
deriving DecidableEq, Repr

/-- The three members the null-guards read and write. -/
def CefWidget.members (s : CefWidget) :
    Option BrowserId × Option HandlerId × Option BrowserId :=
  (s.browser_, s.dev_tools_handler_, s.dev_tools_browser_)

/-- Result of a member function returning `void`: the new state and the trace. -/
abbrev Run := CefWidget × List Effect

/-! ## Operations (`cef_widget.cc`) -/

/-- Member function `CefWidget::LoadUrl` -/
def LoadUrl (url : String) (s : CefWidget) : Run :=
  match s.browser_ with
  | some b => (s, [.engine b .mainFrame (.LoadURL url)])
  | none => (s, [])

/-- Member function `CefWidget::CurrentUrl`; `GetURL` is what the engine reports for a main frame. -/
def CurrentUrl (GetURL : BrowserId → String) (s : CefWidget) : String × List Effect :=
  match s.browser_ with
  | some b => (GetURL b, [.engine b .mainFrame .GetURL])
  | none => ("", [])

/-- Member function `CefWidget::TryClose` -/
def TryClose (s : CefWidget) : Run :=
  match s.browser_ with
  | some b => (s, [.engine b .host (.CloseBrowser true)])
  | none => (s, [])

/-- Source text `std::to_string(int)`: the decimal digits, preceded by `-` for a negative value. -/
def std_to_string (num : Int) : String :=
  if num < 0 then "-" ++ Nat.repr num.natAbs else Nat.repr num.natAbs

/-- Member function `CefWidget::Go` -/
def Go (num : Int) (s : CefWidget) : Run :=
  match s.browser_ with
  | some b =>
    (s, [.engine b .mainFrame
          (.ExecuteJavaScript ("history.go(" ++ std_to_string num ++ ")") "<doogie>" 0)])
  | none => (s, [])

/-- Member function `CefWidget::Refresh` -/
def Refresh (ignore_cache : Bool) (s : CefWidget) : Run :=
  match s.browser_ with
  | some b =>
    if ignore_cache then (s, [.engine b .browser .ReloadIgnoreCache])
    else (s, [.engine b .browser .Reload])
  | none => (s, [])

/-- Member function `CefWidget::Stop` -/
def Stop (s : CefWidget) : Run :=
  match s.browser_ with
  | some b => (s, [.engine b .browser .StopLoad])
  | none => (s, [])

/-- Member function `CefWidget::Print` -/
def Print (s : CefWidget) : Run :=
  match s.browser_ with
  | some b => (s, [.engine b .host .Print])
  | none => (s, [])

/-- Member function `CefWidget::Find` -/
def Find (text : String) (forward match_case continued : Bool) (s : CefWidget) : Run :=
  match s.browser_ with
  | some b => (s, [.engine b .host (.Find 0 text forward match_case continued)])
  | none => (s, [])

/-- Member function `CefWidget::CancelFind` -/
def CancelFind (clear_selection : Bool) (s : CefWidget) : Run :=
  match s.browser_ with
  | some b => (s, [.engine b .host (.StopFinding clear_selection)])
  | none => (s, [])

/-- Member function `CefWidget::ExecJs` -/
def ExecJs (js : String) (s : CefWidget) : Run :=
  match s.browser_ with
  | some b => (s, [.engine b .mainFrame (.ExecuteJavaScript js "<doogie>" 0)])
  | none => (s, [])

/-- The call `browser_->GetHost()->ShowDevTools(widg->WindowInfo(), dev_tools_handler_,
settings, CefPoint(inspect_at.x(), inspect_at.y()))` that ends `ShowDevTools`. -/
def showDevToolsCall (b : BrowserId) (widg : CefBaseWidget) (h : HandlerId)
    (inspect_at : QPoint) : Effect :=
  .engine b .host
    (.ShowDevTools widg.WindowInfo h CefBrowserSettings.default ⟨inspect_at.x, inspect_at.y⟩)

/-- Member function `CefWidget::ShowDevTools`. `new CefHandler` yields the next handler object;
the three `connect` calls and `ForwardKeyboardEventsFrom` are recorded in the state. -/
def ShowDevTools (widg : CefBaseWidget) (inspect_at : QPoint) (s : CefWidget) : Run :=
  match s.browser_ with
  | some b =>
    match s.dev_tools_handler_ with
    | none =>
      let h : HandlerId := s.handlers_created
      ({ s with
          dev_tools_handler_ := some h
          handlers_created := s.handlers_created + 1
          keyboard_forwards := s.keyboard_forwards ++ [(widg.id, h)]
          connections := s.connections ++
            [⟨h, .AfterCreated, s.self⟩, ⟨h, .LoadEnd, s.self⟩, ⟨h, .Closed, s.self⟩] },
        [showDevToolsCall b widg h inspect_at])
    | some h => (s, [showDevToolsCall b widg h inspect_at])
  | none => (s, [])

/-- Member function `CefWidget::ExecDevToolsJs` -/
def ExecDevToolsJs (js : String) (s : CefWidget) : Run :=
  match s.dev_tools_browser_ with
  | some d => (s, [.engine d .mainFrame (.ExecuteJavaScript js "<doogie>" 0)])
  | none => (s, [])

/-- Run a slot `n` times in a row, threading the state and joining the traces. -/
def repeatCall (f : CefWidget → Run) : Nat → CefWidget → Run
  | 0, s => (s, [])
  | n + 1, s =>
    let r := f s
    let r2 := repeatCall f n r.1
    (r2.1, r.2 ++ r2.2)

/-- How many slots running `CloseDevTools` are connected to the `Closed` signal
of the dev-tools handler of this widget. -/
def closedSlots (s : CefWidget) : Nat :=
  match s.dev_tools_handler_ with
  | some h => (s.connections.filter (fun c => c = ⟨h, .Closed, s.self⟩)).length
  | none => 0

/-- Member function `CefWidget::CloseDevTools`.

The engine's `CloseDevTools` is a call out of the widget, during which the
engine may report the dev-tools browser closed: the dev-tools handler then
emits `Closed`, and each slot connected in `ShowDevTools` runs
`CloseDevTools` again before the engine call returns. `reenter` is the number
of nesting levels at which the engine does so (`0`: the engine call returns
without emitting `Closed`). -/
def CloseDevTools : Nat → CefWidget → Run
  | 0, s =>
    match s.dev_tools_browser_ with
    | some d =>
      ({ s with dev_tools_browser_ := none },
        [.engine d .host .CloseDevTools, .emit s.self .DevToolsClosed])
    | none => (s, [])
  | reenter + 1, s =>
    match s.dev_tools_browser_ with
    | some d =>
      let during := repeatCall (CloseDevTools reenter) (closedSlots s) s
      ({ during.1 with dev_tools_browser_ := none },
        [.engine d .host .CloseDevTools] ++ during.2 ++ [.emit s.self .DevToolsClosed])
    | none => (s, [])

/-- Member function `CefWidget::GetZoomLevel`; `GetZoomLevel` is what the engine reports for a host. -/
def GetZoomLevel (GetZoomLevel : BrowserId → Double) (s : CefWidget) :
    Double × List Effect :=
  match s.browser_ with
  | some b => (GetZoomLevel b, [.engine b .host .GetZoomLevel])
  | none => (Double.zero, [])

/-- Member function `CefWidget::SetZoomLevel` -/
def SetZoomLevel (level : Double) (s : CefWidget) : Run :=
  match s.browser_ with
  | some b => (s, [.engine b .host (.SetZoomLevel level)])
  | none => (s, [])

/-- Member function `CefWidget::focusInEvent` -/
def focusInEvent (s : CefWidget) : Run :=
  match s.browser_ with
  | some b => (s, [.qwidgetFocus true, .engine b .host (.SendFocusEvent true)])
  | none => (s, [.qwidgetFocus true])

/-- Member function `CefWidget::focusOutEvent` -/
def focusOutEvent (s : CefWidget) : Run :=
  match s.browser_ with
  | some b => (s, [.qwidgetFocus false, .engine b .host (.SendFocusEvent false)])
  | none => (s, [.qwidgetFocus false])

/-- Modelled from the spec: `CefWidget::NavEntryVisitor` is declared in the header
`cef_widget.h`, which is absent; a visitor collects the navigation entries it is
shown, a freshly constructed one has visited nothing, and `Entries()` returns
what was collected. The entry type `NavEntry` is a parameter. -/
structure NavEntryVisitor (NavEntry : Type) where
  entries_ : List NavEntry

/-- Source text `new CefWidget::NavEntryVisitor` -/
def NavEntryVisitor.new {NavEntry : Type} : NavEntryVisitor NavEntry := ⟨[]⟩

/-- Source text `visitor->Entries()` -/
def NavEntryVisitor.Entries {NavEntry : Type} (v : NavEntryVisitor NavEntry) :
    List NavEntry := v.entries_

/-- Member function `CefWidget::NavEntries`; `GetNavigationEntries b visitor current_only` is the
visitor after the engine has shown it the entries of browser `b`. -/
def NavEntries {NavEntry : Type}
    (GetNavigationEntries : BrowserId → NavEntryVisitor NavEntry → Bool →
      NavEntryVisitor NavEntry)
    (s : CefWidget) : List NavEntry × List Effect :=
  let visitor : NavEntryVisitor NavEntry := NavEntryVisitor.new
  match s.browser_ with
  | some b =>
    ((GetNavigationEntries b visitor false).Entries,
      [.engine b .host (.GetNavigationEntries false)])
  | none => (visitor.Entries, [])

/-! ## Slots connected to handler signals -/

/-- Source text `isSignalConnected(favicon_sig)`: the signal has at least one receiver. -/
def isFaviconChangedConnected (s : CefWidget) : Bool :=
  decide (0 < s.favicon_receivers)

/-- The lambda connected to `CefHandler::FaviconUrlChanged` in the constructor. -/
def onFaviconUrlChanged (url : String) (s : CefWidget) : Run :=
  match isFaviconChangedConnected s, s.browser_ with
  | true, some b => (s, [.engine b .host (.DownloadImage url true 16 false ⟨s.self⟩)])
  | _, _ => (s, [])

/-- Engine `CefRect`. -/
structure CefRect where
  x : Int
  y : Int
  width : Int
  height : Int
deriving DecidableEq, Repr

/-- The lambda connected to `CefHandler::FindResult` in the constructor. -/
def onFindResult (_ : Int) (count : Int) (_ : CefRect) (active_match_ordinal : Int)
    (_ : Bool) (s : CefWidget) : Run :=
  (s, [.emit s.self (.FindResult count active_match_ordinal)])

/-- The lambda connected to `AfterCreated` of the dev-tools handler. -/
def onDevToolsAfterCreated (b : Option BrowserId) (s : CefWidget) : CefWidget :=
  { s with dev_tools_browser_ := b }

/-- The lambda connected to `LoadEnd` of the dev-tools handler; `frameIsMain` is
`frame->IsMain()`. -/
def onDevToolsLoadEnd (frameIsMain : Bool) (_ : Int) (s : CefWidget) : Run :=
  if frameIsMain then (s, [.emit s.self .DevToolsLoadComplete]) else (s, [])

/-! ## The favicon download callback -/

/-- Engine `CefBinaryValue`: the bytes it holds (each a `uchar`). -/
structure CefBinaryValue where
  bytes : List Nat
deriving DecidableEq, Repr

/-- Source text `png->GetSize()` -/
def CefBinaryValue.GetSize (png : CefBinaryValue) : Nat := png.bytes.length

/-- Source text `png->GetData(buffer, buffer_size, data_offset)`: the bytes copied to the
buffer, at most `buffer_size` of them, starting at `data_offset`. -/
def CefBinaryValue.GetData (png : CefBinaryValue) (buffer_size data_offset : Nat) :
    List Nat :=
  (png.bytes.drop data_offset).take buffer_size

/-- Engine `CefImage`: what `GetAsPNG(1.0f, true, width, height)` returns for it
(null when the image cannot be rendered as PNG). -/
structure CefImage where
  GetAsPNG : Option CefBinaryValue
deriving DecidableEq, Repr

/-- The vector `data` after `std::vector<uchar> data(size)` and
`png->GetData(&data[0], size, 0)`. -/
def pngBuffer (png : CefBinaryValue) : List Nat :=
  let size := png.GetSize
  let data := List.replicate size 0
  let copied := png.GetData size 0
  copied ++ data.drop copied.length

/-- The cast `(uint)size` of a `size_t` to a 32-bit unsigned integer. -/
def toUint (size : Nat) : Nat := size % 2 ^ 32

/-- The bytes `pixmap.loadFromData(&data[0], (uint)size, "PNG")` reads. -/
def decoderInput (png : CefBinaryValue) : List Nat :=
  (pngBuffer png).take (toUint png.GetSize)

/-- An element access is within bounds when the index is below the length. -/
def inBounds (a : Nat × Nat) : Bool := decide (a.1 < a.2)

/-- The steps the `else` branch is written to perform, up to and including the
call of the decoder; each element access is recorded with the length the
vector has at that point. -/
def decodeSteps (png : CefBinaryValue) : List Effect :=
  let size := png.GetSize
  let data := pngBuffer png
  [.GetAsPNG, .GetSize, .vectorNew size, .vectorAt 0 data.length, .GetData size 0,
    .vectorAt 0 data.length, .loadFromData (toUint size) "PNG"]

/-- How a run of the callback ends. -/
inductive Outcome where
  /-- the function returns after the steps of the trace -/
  | returned (trace : List Effect)
  /-- the last step of the trace accesses an element outside the vector: the
  behaviour of the program is undefined from there on, no later step is
  guaranteed to happen -/
  | undefined (trace : List Effect)
deriving DecidableEq, Repr

/-- The steps of a run, up to its return or up to the access outside the vector. -/
def Outcome.trace : Outcome → List Effect
  | .returned t => t
  | .undefined t => t

/-- Whether the run returns. -/
def Outcome.isReturned : Outcome → Bool
  | .returned _ => true
  | .undefined _ => false

/-- Member function `CefWidget::FaviconDownloadCallback::OnDownloadImageFinished`;
`loadFromData` is the decoder of the toolkit (`none` when it returns false).
Each `data[0]` is checked against the length of the vector; an access outside
the vector ends the run as undefined. -/
def OnDownloadImageFinished (loadFromData : List Nat → Option QPixmap)
    (_ : String) (_ : Int) (image : Option CefImage)
    (cb : FaviconDownloadCallback) : Outcome :=
  let icon := QIcon.empty
  match image with
  | some image =>
    match image.GetAsPNG with
    | none =>
      .returned [.GetAsPNG, .qDebug "Unable to get icon as PNG",
        .emit cb.cef_widg_ (.FaviconChanged icon)]
    | some png =>
      let size := png.GetSize
      let data : List Nat := List.replicate size 0
      if inBounds (0, data.length) then
        let data := pngBuffer png
        if inBounds (0, data.length) then
          match loadFromData (decoderInput png) with
          | none =>
            .returned (decodeSteps png ++
              [.qDebug "Unable to convert icon as PNG",
                .emit cb.cef_widg_ (.FaviconChanged icon)])
          | some pixmap =>
            .returned (decodeSteps png ++
              [.emit cb.cef_widg_ (.FaviconChanged (icon.addPixmap pixmap))])
        else
          .undefined [.GetAsPNG, .GetSize, .vectorNew size, .vectorAt 0 size,
            .GetData size 0, .vectorAt 0 data.length]
      else
        .undefined [.GetAsPNG, .GetSize, .vectorNew size, .vectorAt 0 data.length]
  | none => .returned [.emit cb.cef_widg_ (.FaviconChanged icon)]

/-- The debug log lines of a trace, in order. -/
def debugLines : List Effect → List String
  | [] => []
  | .qDebug msg :: t => msg :: debugLines t
  | _ :: t => debugLines t

/-- The element accesses `data[index]` of a trace, each with the length of the
vector at that moment. -/
def vectorAccesses : List Effect → List (Nat × Nat)
  | [] => []
  | .vectorAt i n :: t => (i, n) :: vectorAccesses t
  | _ :: t => vectorAccesses t

/-! ## Concrete widgets used to instantiate the theorems -/

/-- A widget whose browser has not been created: every handle is null, one
receiver listens to `FaviconChanged`. -/
def nullBrowserWidget : CefWidget :=
  { self := 1, handler_ := 0, browser_ := none, dev_tools_handler_ := none,
    dev_tools_browser_ := none, connections := [], keyboard_forwards := [],
    handlers_created := 1, favicon_receivers := 1 }

/-- The same widget once the engine has created browser 7 for it. -/
def liveWidget : CefWidget :=
  { nullBrowserWidget with browser_ := some 7 }

/-- A run that changes nothing and calls nothing in the engine. -/
def Untouched (s : CefWidget) (r : Run) : Prop :=
  r.1 = s ∧ r.1.members = s.members ∧ engineCalls r.2 = []

/-- The widget `liveWidget` after `ShowDevTools` was called on it and the engine
reported the dev-tools browser 9 created. -/
def devToolsOpenWidget : CefWidget :=
  onDevToolsAfterCreated (some 9) (ShowDevTools ⟨2, 5⟩ ⟨3, 4⟩ liveWidget).1

/-! ## Sequences of calls -/

/-- The widget `liveWidget` after `ShowDevTools` was called on it; the engine
has not yet reported the dev-tools browser created. -/
def devToolsShownWidget : CefWidget :=
  (ShowDevTools ⟨2, 5⟩ ⟨3, 4⟩ liveWidget).1

/-- What happens to the dev-tools browser handle: the slot connected to
`AfterCreated` runs, or `CloseDevTools` is called; `reenter` is the number of
nesting levels at which the engine delivers `Closed` during its own
`CloseDevTools` call (see `CloseDevTools`). -/
inductive DevToolsEvent where
  | AfterCreated (b : Option BrowserId)
  | CloseDevTools (reenter : Nat)
deriving DecidableEq, Repr

/-- Run one dev-tools event. -/
def runDevToolsEvent : DevToolsEvent → CefWidget → Run
  | .AfterCreated b, s => (onDevToolsAfterCreated b s, [])
  | .CloseDevTools reenter, s => CloseDevTools reenter s

/-- Run a sequence of dev-tools events, first to last. -/
def runDevToolsEvents : List DevToolsEvent → CefWidget → Run
  | [], s => (s, [])
  | e :: es, s =>
    let r := runDevToolsEvent e s
    let r2 := runDevToolsEvents es r.1
    (r2.1, r.2 ++ r2.2)

/-- Whether the engine call of the event returns before any `Closed` signal is
delivered. -/
def DevToolsEvent.notReentered : DevToolsEvent → Bool
  | .CloseDevTools (_ + 1) => false
  | _ => true

/-- Number of `CloseDevTools` calls of a sequence that find a non-null dev-tools
browser handle when they start (calls made by the sequence itself, not the
nested ones). -/
def closesThatFoundBrowser : List DevToolsEvent → CefWidget → Nat
  | [], _ => 0
  | .CloseDevTools reenter :: es, s =>
    (if s.dev_tools_browser_.isSome then 1 else 0) +
      closesThatFoundBrowser es (runDevToolsEvent (.CloseDevTools reenter) s).1
  | .AfterCreated b :: es, s =>
    closesThatFoundBrowser es (runDevToolsEvent (.AfterCreated b) s).1

/-- Number of `AfterCreated` events of a sequence. -/
def afterCreatedEvents : List DevToolsEvent → Nat
  | [] => 0
  | .AfterCreated _ :: es => afterCreatedEvents es + 1
  | .CloseDevTools _ :: es => afterCreatedEvents es

/-- Number of `DevToolsClosed` emissions in a trace. -/
def devToolsClosedEmissions (t : List Effect) : Nat :=
  (emitted t).count .DevToolsClosed

/-- Number of engine `CloseDevTools` calls in a trace. -/
def engineCloseDevToolsCalls : List Effect → Nat
  | [] => 0
  | .engine _ _ .CloseDevTools :: t => engineCloseDevToolsCalls t + 1
  | _ :: t => engineCloseDevToolsCalls t

/-- A call on the widget that touches the dev tools. -/
inductive WidgetCall where
  | ShowDevTools (widg : CefBaseWidget) (inspect_at : QPoint)
  | CloseDevTools (reenter : Nat)
  | AfterCreated (b : Option BrowserId)
  | LoadEnd (frameIsMain : Bool) (httpStatusCode : Int)
deriving DecidableEq, Repr

/-- Run one call. -/
def runCall : WidgetCall → CefWidget → Run
  | .ShowDevTools widg inspect_at, s => ShowDevTools widg inspect_at s
  | .CloseDevTools reenter, s => CloseDevTools reenter s
  | .AfterCreated b, s => (onDevToolsAfterCreated b s, [])
  | .LoadEnd frameIsMain code, s => onDevToolsLoadEnd frameIsMain code s

/-- Run a sequence of calls, first to last. -/
def runCalls : List WidgetCall → CefWidget → Run
  | [], s => (s, [])
  | c :: cs, s =>
    let r := runCall c s
    let r2 := runCalls cs r.1
    (r2.1, r.2 ++ r2.2)

/-- The arguments of the `ShowDevTools` calls of a sequence, in order. -/
def showDevToolsArgs : List WidgetCall → List (CefBaseWidget × QPoint)
  | [] => []
  | .ShowDevTools widg inspect_at :: cs => (widg, inspect_at) :: showDevToolsArgs cs
  | _ :: cs => showDevToolsArgs cs

/-- Whether an effect is an engine `ShowDevTools` call. -/
def Effect.isShowDevTools : Effect → Bool
  | .engine _ _ (.ShowDevTools _ _ _ _) => true
  | _ => false

/-- The engine `ShowDevTools` calls of a trace, in order. -/
def showDevToolsCalls (t : List Effect) : List Effect := t.filter Effect.isShowDevTools

/-- Two states agree on everything `ShowDevTools` sets up: the widget, its
browser, the dev-tools handler, the handlers created, the connections and the
keyboard forwarding. Only the dev-tools browser handle may differ. -/
def SameSetup (s r : CefWidget) : Prop :=
  r.self = s.self ∧ r.browser_ = s.browser_ ∧
  r.dev_tools_handler_ = s.dev_tools_handler_ ∧
  r.handlers_created = s.handlers_created ∧ r.connections = s.connections ∧
  r.keyboard_forwards = s.keyboard_forwards

/-! ## Null-guards -/

/-- C1: with a null browser handle, each of LoadUrl, TryClose, Go, Refresh, Stop,
Print, Find, CancelFind, ExecJs, ShowDevTools, SetZoomLevel, focusInEvent and
focusOutEvent makes no engine call and leaves the widget state (in particular
browser_, dev_tools_handler_ and dev_tools_browser_) unchanged, whatever the
arguments; ShowDevTools creates no dev-tools handler. -/
theorem null_browser_is_no_op (s : CefWidget) (h : s.browser_ = none)
    (url text js : String) (num : Int)
    (ignore_cache forward match_case continued clear_selection : Bool)
    (widg : CefBaseWidget) (inspect_at : QPoint) (level : Double) :
    Untouched s (LoadUrl url s) ∧ Untouched s (TryClose s) ∧ Untouched s (Go num s) ∧
    Untouched s (Refresh ignore_cache s) ∧ Untouched s (Stop s) ∧ Untouched s (Print s) ∧
    Untouched s (Find text forward match_case continued s) ∧
    Untouched s (CancelFind clear_selection s) ∧ Untouched s (ExecJs js s) ∧
    Untouched s (ShowDevTools widg inspect_at s) ∧ Untouched s (SetZoomLevel level s) ∧
    Untouched s (focusInEvent s) ∧ Untouched s (focusOutEvent s) ∧
    (ShowDevTools widg inspect_at s).1.dev_tools_handler_ = s.dev_tools_handler_ ∧
    (ShowDevTools widg inspect_at s).1.handlers_created = s.handlers_created := by
  simp [Untouched, LoadUrl, TryClose, Go, Refresh, Stop, Print, Find, CancelFind, ExecJs,
    ShowDevTools, SetZoomLevel, focusInEvent, focusOutEvent, engineCalls,
    Effect.isEngineCall, h]

/-- C1 at the widget without a browser: ShowDevTools neither calls the engine nor
creates a handler, and focusInEvent only runs the base-class handler. -/
theorem null_browser_is_no_op_witness :
    nullBrowserWidget.browser_ = none ∧
    Untouched nullBrowserWidget (ShowDevTools ⟨2, 5⟩ ⟨3, 4⟩ nullBrowserWidget) ∧
    Untouched nullBrowserWidget (focusInEvent nullBrowserWidget) ∧
    (ShowDevTools ⟨2, 5⟩ ⟨3, 4⟩ nullBrowserWidget).1.dev_tools_handler_ = none :=
  have w := null_browser_is_no_op nullBrowserWidget rfl "u" "t" "j" (-1)
    true true false false true ⟨2, 5⟩ ⟨3, 4⟩ ⟨0⟩
  ⟨rfl, w.2.2.2.2.2.2.2.2.2.1, w.2.2.2.2.2.2.2.2.2.2.2.1, w.2.2.2.2.2.2.2.2.2.2.2.2.2.1⟩

/-- C2: with a null browser handle CurrentUrl returns the empty string,
GetZoomLevel returns 0.0 and NavEntries returns the entries of a freshly
constructed visitor, which are none, all three without any call; with a
non-null handle CurrentUrl and GetZoomLevel return exactly what the engine
reports for the main frame URL and the host zoom level. -/
theorem queries_default_or_delegate {NavEntry : Type} (GetURL : BrowserId → String)
    (zoom : BrowserId → Double)
    (visit : BrowserId → NavEntryVisitor NavEntry → Bool → NavEntryVisitor NavEntry)
    (s : CefWidget) :
    (s.browser_ = none →
      CurrentUrl GetURL s = ("", []) ∧ GetZoomLevel zoom s = (Double.zero, []) ∧
      NavEntries visit s = ((NavEntryVisitor.new : NavEntryVisitor NavEntry).Entries, []) ∧
      (NavEntries visit s).1 = []) ∧
    (∀ b, s.browser_ = some b →
      (CurrentUrl GetURL s).1 = GetURL b ∧ (GetZoomLevel zoom s).1 = zoom b ∧
      engineCalls (CurrentUrl GetURL s).2 = [.engine b .mainFrame .GetURL] ∧
      engineCalls (GetZoomLevel zoom s).2 = [.engine b .host .GetZoomLevel]) := by
  constructor
  · intro h
    simp [CurrentUrl, GetZoomLevel, NavEntries, NavEntryVisitor.new,
      NavEntryVisitor.Entries, h]
  · intro b h
    simp [CurrentUrl, GetZoomLevel, engineCalls, Effect.isEngineCall, h]

/-- C2 at two concrete widgets: without a browser the defaults come back, with
browser 7 the values the engine reports for it. -/
theorem queries_default_or_delegate_witness :
    (CurrentUrl (fun _ => "about:blank") nullBrowserWidget = ("", []) ∧
      GetZoomLevel (fun b => ⟨b⟩) nullBrowserWidget = (Double.zero, []) ∧
      (NavEntries (fun _ _ _ => ⟨[5]⟩) nullBrowserWidget).1 = ([] : List Nat)) ∧
    ((CurrentUrl (fun _ => "about:blank") liveWidget).1 = "about:blank" ∧
      (GetZoomLevel (fun b => ⟨b⟩) liveWidget).1 = ⟨7⟩) :=
  have w0 := (queries_default_or_delegate (fun _ => "about:blank") (fun b => ⟨b⟩)
    (fun _ _ _ => (⟨[5]⟩ : NavEntryVisitor Nat)) nullBrowserWidget).1 rfl
  have w1 := (queries_default_or_delegate (fun _ => "about:blank") (fun b => ⟨b⟩)
    (fun _ _ _ => (⟨[5]⟩ : NavEntryVisitor Nat)) liveWidget).2 7 rfl
  ⟨⟨w0.1, w0.2.1, w0.2.2.2⟩, ⟨w1.1, w1.2.1⟩⟩

/-! ## Delegations and forwarded events -/

/-- The rendering of `std::to_string` agrees with the standard decimal rendering
of an integer. -/
theorem std_to_string_eq_toString (num : Int) : std_to_string num = toString num := by
  unfold std_to_string
  cases num with
  | ofNat n => simp [toString, instToStringInt, Int.repr]
  | negSucc n => simp [toString, instToStringInt, Int.repr, Int.negSucc_lt_zero]

/-- C4: with a non-null browser, Go(num) makes exactly one engine call,
ExecuteJavaScript on the main frame, with the script "history.go(" followed by
the signed decimal rendering of num followed by ")", script URL "<doogie>" and
start line 0; a negative num is rendered with a leading minus sign and num = 0
gives "history.go(0)". -/
theorem Go_is_one_history_call (num : Int) (s : CefWidget) (b : BrowserId)
    (h : s.browser_ = some b) :
    Go num s =
      (s, [.engine b .mainFrame
        (.ExecuteJavaScript ("history.go(" ++ toString num ++ ")") "<doogie>" 0)]) ∧
    (engineCalls (Go num s).2).length = 1 ∧
    (num < 0 → (Go num s).2 =
      [.engine b .mainFrame
        (.ExecuteJavaScript ("history.go(-" ++ Nat.repr num.natAbs ++ ")") "<doogie>" 0)]) ∧
    (num = 0 → (Go num s).2 =
      [.engine b .mainFrame (.ExecuteJavaScript "history.go(0)" "<doogie>" 0)]) := by
  refine ⟨?_, ?_, ?_, ?_⟩
  · simp [Go, h, std_to_string_eq_toString]
  · simp [Go, h, engineCalls, Effect.isEngineCall]
  · intro hn
    simp only [Go, h, std_to_string, hn, if_true]
    rw [← String.append_assoc "history.go(" "-"]
    rfl
  · intro hn
    subst hn
    simp [Go, h]
    decide

/-- C4 at browser 7: going back two entries runs "history.go(-2)", and
Go(0) runs "history.go(0)". -/
theorem Go_is_one_history_call_witness :
    liveWidget.browser_ = some 7 ∧
    Go (-2) liveWidget =
      (liveWidget,
        [.engine 7 .mainFrame (.ExecuteJavaScript "history.go(-2)" "<doogie>" 0)]) ∧
    (Go 0 liveWidget).2 =
      [.engine 7 .mainFrame (.ExecuteJavaScript "history.go(0)" "<doogie>" 0)] :=
  ⟨rfl, (Go_is_one_history_call (-2) liveWidget 7 rfl).1,
    (Go_is_one_history_call 0 liveWidget 7 rfl).2.2.2 rfl⟩

/-- C6: on a favicon URL change the widget calls the engine if and only if
FaviconChanged has at least one receiver and the browser handle is non-null;
it then makes exactly one call, DownloadImage on the host with that URL,
is_favicon = true, maximum size 16, bypass_cache = false and a callback bound
to this widget, and makes no call otherwise. -/
theorem favicon_url_change_downloads_iff (url : String) (s : CefWidget) :
    (engineCalls (onFaviconUrlChanged url s).2 ≠ [] ↔
      (0 < s.favicon_receivers ∧ s.browser_ ≠ none)) ∧
    (∀ b, 0 < s.favicon_receivers → s.browser_ = some b →
      onFaviconUrlChanged url s =
        (s, [.engine b .host (.DownloadImage url true 16 false ⟨s.self⟩)])) ∧
    (¬ (0 < s.favicon_receivers ∧ s.browser_ ≠ none) →
      onFaviconUrlChanged url s = (s, [])) := by
  unfold onFaviconUrlChanged isFaviconChangedConnected
  by_cases hr : 0 < s.favicon_receivers
  · cases hb : s.browser_ with
    | none => simp [hr, engineCalls]
    | some b => simp [hr, engineCalls, Effect.isEngineCall]
  · simp [hr, engineCalls]

/-- C6 at three widgets: a download is requested for the live widget with a
receiver, none without a receiver, none without a browser. -/
theorem favicon_url_change_downloads_iff_witness :
    onFaviconUrlChanged "http://a/favicon.ico" liveWidget =
      (liveWidget,
        [.engine 7 .host (.DownloadImage "http://a/favicon.ico" true 16 false ⟨1⟩)]) ∧
    onFaviconUrlChanged "http://a/favicon.ico" { liveWidget with favicon_receivers := 0 } =
      ({ liveWidget with favicon_receivers := 0 }, []) ∧
    onFaviconUrlChanged "http://a/favicon.ico" nullBrowserWidget = (nullBrowserWidget, []) :=
  ⟨(favicon_url_change_downloads_iff "http://a/favicon.ico" liveWidget).2.1 7
      (by decide) rfl,
    (favicon_url_change_downloads_iff "http://a/favicon.ico"
      { liveWidget with favicon_receivers := 0 }).2.2 (by decide),
    (favicon_url_change_downloads_iff "http://a/favicon.ico" nullBrowserWidget).2.2
      (by decide)⟩

/-- C7: every find-in-page result (identifier, count, rectangle,
active_match_ordinal, final_update) makes the widget emit exactly one signal,
FindResult(count, active_match_ordinal), and nothing else; the outcome is the
same for every identifier, rectangle and final_update flag. -/
theorem find_result_forwards_count_and_ordinal (identifier count : Int) (rect : CefRect)
    (active_match_ordinal : Int) (final_update : Bool) (s : CefWidget) :
    onFindResult identifier count rect active_match_ordinal final_update s =
      (s, [.emit s.self (.FindResult count active_match_ordinal)]) ∧
    emitted (onFindResult identifier count rect active_match_ordinal final_update s).2 =
      [.FindResult count active_match_ordinal] ∧
    ∀ (identifier2 : Int) (rect2 : CefRect) (final_update2 : Bool),
      onFindResult identifier2 count rect2 active_match_ordinal final_update2 s =
        onFindResult identifier count rect active_match_ordinal final_update s := by
  simp [onFindResult, emitted]

/-! ## The favicon download callback -/

/-- After `GetData` the buffer holds exactly the bytes of the PNG. -/
theorem pngBuffer_eq_bytes (png : CefBinaryValue) : pngBuffer png = png.bytes := by
  simp [pngBuffer, CefBinaryValue.GetData, CefBinaryValue.GetSize]

/-- For a PNG shorter than 2^32 bytes the decoder reads the whole PNG. -/
theorem decoderInput_eq_bytes (png : CefBinaryValue) (h : png.GetSize < 2 ^ 32) :
    decoderInput png = png.bytes := by
  have hmod : png.bytes.length % 4294967296 = png.bytes.length := Nat.mod_eq_of_lt h
  simp [decoderInput, pngBuffer_eq_bytes, toUint, CefBinaryValue.GetSize, hmod]

/-- The steps up to the decoder emit nothing and log nothing. -/
theorem decodeSteps_silent (png : CefBinaryValue) (t : List Effect) :
    emitted (decodeSteps png ++ t) = emitted t ∧
    debugLines (decodeSteps png ++ t) = debugLines t := by
  simp [decodeSteps, emitted, debugLines]

/-- With a PNG that is not empty both element accesses are within bounds and
the run reaches the decoder. -/
theorem OnDownloadImageFinished_of_nonempty (loadFromData : List Nat → Option QPixmap)
    (url : String) (status : Int) (img : CefImage) (png : CefBinaryValue)
    (cb : FaviconDownloadCallback) (hp : img.GetAsPNG = some png) (h0 : 0 < png.GetSize) :
    OnDownloadImageFinished loadFromData url status (some img) cb =
      match loadFromData (decoderInput png) with
      | none =>
        .returned (decodeSteps png ++
          [.qDebug "Unable to convert icon as PNG",
            .emit cb.cef_widg_ (.FaviconChanged QIcon.empty)])
      | some pixmap =>
        .returned (decodeSteps png ++
          [.emit cb.cef_widg_ (.FaviconChanged (QIcon.empty.addPixmap pixmap))]) := by
  have hpos : 0 < png.bytes.length := h0
  simp [OnDownloadImageFinished, hp, inBounds, pngBuffer_eq_bytes, CefBinaryValue.GetSize,
    hpos]

/-- Whenever the engine returns no PNG of size 0, OnDownloadImageFinished
returns and emits FaviconChanged exactly once, on the widget of the callback.
The icon is the empty icon when the image is null, when the image has no PNG
rendering, and when the decoder rejects the bytes; otherwise it holds exactly
the one decoded pixmap. A failure only writes one debug line, a different one
for each of the two failure stages. -/
theorem favicon_download_emits_once_of_nonempty
    (loadFromData : List Nat → Option QPixmap)
    (url : String) (status : Int) (image : Option CefImage)
    (cb : FaviconDownloadCallback)
    (hne : ∀ img png, image = some img → img.GetAsPNG = some png → 0 < png.GetSize) :
    (OnDownloadImageFinished loadFromData url status image cb).isReturned = true ∧
    (∃ icon,
      (OnDownloadImageFinished loadFromData url status image cb).trace.filter
          Effect.isEmit = [.emit cb.cef_widg_ (.FaviconChanged icon)] ∧
      emitted (OnDownloadImageFinished loadFromData url status image cb).trace =
        [.FaviconChanged icon]) ∧
    (image = none →
      emitted (OnDownloadImageFinished loadFromData url status image cb).trace =
        [.FaviconChanged QIcon.empty] ∧
      debugLines (OnDownloadImageFinished loadFromData url status image cb).trace = []) ∧
    (∀ img, image = some img → img.GetAsPNG = none →
      emitted (OnDownloadImageFinished loadFromData url status image cb).trace =
        [.FaviconChanged QIcon.empty] ∧
      debugLines (OnDownloadImageFinished loadFromData url status image cb).trace =
        ["Unable to get icon as PNG"]) ∧
    (∀ img png, image = some img → img.GetAsPNG = some png →
      loadFromData (decoderInput png) = none →
      emitted (OnDownloadImageFinished loadFromData url status image cb).trace =
        [.FaviconChanged QIcon.empty] ∧
      debugLines (OnDownloadImageFinished loadFromData url status image cb).trace =
        ["Unable to convert icon as PNG"]) ∧
    (∀ img png pixmap, image = some img → img.GetAsPNG = some png →
      loadFromData (decoderInput png) = some pixmap →
      emitted (OnDownloadImageFinished loadFromData url status image cb).trace =
        [.FaviconChanged ⟨[pixmap]⟩] ∧
      debugLines (OnDownloadImageFinished loadFromData url status image cb).trace = []) ∧
    "Unable to get icon as PNG" ≠ "Unable to convert icon as PNG" := by
  have key : ∀ img png, image = some img → img.GetAsPNG = some png →
      OnDownloadImageFinished loadFromData url status image cb =
        match loadFromData (decoderInput png) with
        | none =>
          .returned (decodeSteps png ++
            [.qDebug "Unable to convert icon as PNG",
              .emit cb.cef_widg_ (.FaviconChanged QIcon.empty)])
        | some pixmap =>
          .returned (decodeSteps png ++
            [.emit cb.cef_widg_ (.FaviconChanged (QIcon.empty.addPixmap pixmap))]) := by
    intro img png h hp
    subst h
    exact OnDownloadImageFinished_of_nonempty loadFromData url status img png cb hp
      (hne img png rfl hp)
  refine ⟨?_, ?_, ?_, ?_, ?_, ?_, by decide⟩
  · cases himg : image with
    | none => simp [OnDownloadImageFinished, Outcome.isReturned]
    | some img =>
      cases hp : img.GetAsPNG with
      | none => simp [OnDownloadImageFinished, hp, Outcome.isReturned]
      | some png =>
        rw [← himg, key img png himg hp]
        cases loadFromData (decoderInput png) <;> simp [Outcome.isReturned]
  · cases himg : image with
    | none =>
      exact ⟨QIcon.empty, by
        simp [OnDownloadImageFinished, Outcome.trace, Effect.isEmit, emitted]⟩
    | some img =>
      cases hp : img.GetAsPNG with
      | none =>
        exact ⟨QIcon.empty, by
          simp [OnDownloadImageFinished, hp, Outcome.trace, Effect.isEmit, emitted]⟩
      | some png =>
        rw [← himg, key img png himg hp]
        cases hd : loadFromData (decoderInput png) with
        | none =>
          exact ⟨QIcon.empty, by
            simp [Outcome.trace, decodeSteps, Effect.isEmit, emitted]⟩
        | some pixmap =>
          exact ⟨QIcon.empty.addPixmap pixmap, by
            simp [Outcome.trace, decodeSteps, Effect.isEmit, emitted]⟩
  · intro h
    subst h
    simp [OnDownloadImageFinished, Outcome.trace, emitted, debugLines]
  · intro img h hp
    subst h
    simp [OnDownloadImageFinished, hp, Outcome.trace, emitted, debugLines]
  · intro img png h hp hd
    rw [key img png h hp, hd]
    simp [Outcome.trace, decodeSteps_silent, emitted, debugLines]
  · intro img png pixmap h hp hd
    rw [key img png h hp, hd]
    simp [Outcome.trace, decodeSteps_silent, emitted, debugLines, QIcon.empty,
      QIcon.addPixmap]

/-- The theorem on downloads without an empty PNG, for a decoder that accepts
exactly the two-byte buffer [137, 80]: a null image and an undecodable PNG give
the empty icon, the decodable PNG gives an icon holding the decoded pixmap. -/
theorem favicon_download_emits_once_of_nonempty_witness :
    emitted (OnDownloadImageFinished
      (fun d => if d = [137, 80] then some ⟨4⟩ else none) "u" 200 none ⟨1⟩).trace =
        [.FaviconChanged QIcon.empty] ∧
    debugLines (OnDownloadImageFinished
      (fun d => if d = [137, 80] then some ⟨4⟩ else none) "u" 200
        (some ⟨some ⟨[1]⟩⟩) ⟨1⟩).trace = ["Unable to convert icon as PNG"] ∧
    emitted (OnDownloadImageFinished
      (fun d => if d = [137, 80] then some ⟨4⟩ else none) "u" 200
        (some ⟨some ⟨[137, 80]⟩⟩) ⟨1⟩).trace = [.FaviconChanged ⟨[⟨4⟩]⟩] :=
  ⟨((favicon_download_emits_once_of_nonempty _ "u" 200 none ⟨1⟩
      (by intro img png h; cases h)).2.2.1 rfl).1,
    ((favicon_download_emits_once_of_nonempty _ "u" 200 (some ⟨some ⟨[1]⟩⟩) ⟨1⟩
      (by intro img png h hp; cases h; cases hp; decide)).2.2.2.2.1
      ⟨some ⟨[1]⟩⟩ ⟨[1]⟩ rfl rfl (by decide)).2,
    ((favicon_download_emits_once_of_nonempty _ "u" 200 (some ⟨some ⟨[137, 80]⟩⟩) ⟨1⟩
      (by intro img png h hp; cases h; cases hp; decide)).2.2.2.2.2.1
      ⟨some ⟨[137, 80]⟩⟩ ⟨[137, 80]⟩ ⟨4⟩ rfl rfl (by decide)).1⟩

/-- C3 fails at a PNG of size 0: when the engine returns a non-null PNG without
bytes, the run ends as undefined at the first access to element 0 of the empty
buffer, before the decoder, the debug line and the emit; it does not return and
no FaviconChanged emission is guaranteed, whatever the decoder and the
callback. -/
theorem empty_png_ends_before_emit (loadFromData : List Nat → Option QPixmap)
    (url : String) (status : Int) (cb : FaviconDownloadCallback) :
    OnDownloadImageFinished loadFromData url status (some ⟨some ⟨[]⟩⟩) cb =
      .undefined [.GetAsPNG, .GetSize, .vectorNew 0, .vectorAt 0 0] ∧
    (OnDownloadImageFinished loadFromData url status (some ⟨some ⟨[]⟩⟩) cb).isReturned =
      false ∧
    emitted (OnDownloadImageFinished loadFromData url status
      (some ⟨some ⟨[]⟩⟩) cb).trace = [] := by
  refine ⟨?_, ?_, ?_⟩ <;>
    simp [OnDownloadImageFinished, inBounds, CefBinaryValue.GetSize, Outcome.isReturned,
      Outcome.trace, emitted]

/-- For a PNG that is not empty and shorter than 2^32 bytes the buffer is
allocated with GetSize() elements, both element-0 accesses are within bounds,
and the byte counts given to GetData and to the decoder equal the buffer
length. -/
theorem decodeSteps_in_bounds (png : CefBinaryValue) (h0 : 0 < png.GetSize)
    (h32 : png.GetSize < 2 ^ 32) :
    decodeSteps png =
      [.GetAsPNG, .GetSize, .vectorNew png.GetSize, .vectorAt 0 png.GetSize,
        .GetData png.GetSize 0, .vectorAt 0 png.GetSize,
        .loadFromData png.GetSize "PNG"] ∧
    (pngBuffer png).length = png.GetSize ∧
    (vectorAccesses (decodeSteps png)).all inBounds = true := by
  have hmod : png.bytes.length % 4294967296 = png.bytes.length := Nat.mod_eq_of_lt h32
  have hpos : 0 < png.bytes.length := h0
  simp [decodeSteps, pngBuffer_eq_bytes, toUint, CefBinaryValue.GetSize, hmod,
    vectorAccesses, inBounds, hpos]

/-- The bounds theorem at a three-byte PNG. -/
theorem decodeSteps_in_bounds_witness :
    (vectorAccesses (decodeSteps ⟨[1, 2, 3]⟩)).all inBounds = true :=
  (decodeSteps_in_bounds ⟨[1, 2, 3]⟩ (by decide) (by decide)).2.2

/-- C10 fails at size 0: when the engine returns a non-null PNG of size 0, the
buffer is allocated with 0 elements and both accesses to element 0 that the
code is written to make, the one that passes the buffer to GetData and the one
that passes it to the decoder, are outside the buffer; the run ends as
undefined at the first of them. -/
theorem empty_png_accesses_out_of_bounds :
    OnDownloadImageFinished (fun _ => none) "http://a/favicon.ico" 200
        (some ⟨some ⟨[]⟩⟩) ⟨1⟩ =
      .undefined [.GetAsPNG, .GetSize, .vectorNew 0, .vectorAt 0 0] ∧
    (vectorAccesses (OnDownloadImageFinished (fun _ => none) "http://a/favicon.ico" 200
        (some ⟨some ⟨[]⟩⟩) ⟨1⟩).trace).all inBounds = false ∧
    decodeSteps ⟨[]⟩ =
      [.GetAsPNG, .GetSize, .vectorNew 0, .vectorAt 0 0, .GetData 0 0, .vectorAt 0 0,
        .loadFromData 0 "PNG"] ∧
    vectorAccesses (decodeSteps ⟨[]⟩) = [(0, 0), (0, 0)] ∧
    (vectorAccesses (decodeSteps ⟨[]⟩)).all inBounds = false := by
  decide

/-- For a PNG of 2^32 bytes or more the cast to `uint` drops the high bits: the
length handed to the decoder is smaller than the buffer length. -/
theorem decoder_length_truncated (png : CefBinaryValue) (h : 2 ^ 32 ≤ png.GetSize) :
    decodeSteps png =
      [.GetAsPNG, .GetSize, .vectorNew png.GetSize, .vectorAt 0 png.GetSize,
        .GetData png.GetSize 0, .vectorAt 0 png.GetSize,
        .loadFromData (png.GetSize % 2 ^ 32) "PNG"] ∧
    png.GetSize % 2 ^ 32 < (pngBuffer png).length := by
  have hlt : png.bytes.length % 2 ^ 32 < 2 ^ 32 := Nat.mod_lt _ (by norm_num)
  have hle : 2 ^ 32 ≤ png.bytes.length := h
  refine ⟨by simp [decodeSteps, pngBuffer_eq_bytes, toUint, CefBinaryValue.GetSize], ?_⟩
  rw [pngBuffer_eq_bytes]
  exact Nat.lt_of_lt_of_le hlt hle

/-! ## Closing the dev tools -/

/-- C5 fails when the Closed signal is delivered during the engine call: the
nested CloseDevTools still finds the dev-tools browser handle set, because the
handle is cleared only after the engine call returns; the engine's
CloseDevTools is called twice and DevToolsClosed is emitted twice. -/
theorem nested_close_repeats_engine_call :
    devToolsOpenWidget.dev_tools_browser_ = some 9 ∧
    closedSlots devToolsOpenWidget = 1 ∧
    CloseDevTools 1 devToolsOpenWidget =
      ({ devToolsOpenWidget with dev_tools_browser_ := none },
        [.engine 9 .host .CloseDevTools, .engine 9 .host .CloseDevTools,
          .emit 1 .DevToolsClosed, .emit 1 .DevToolsClosed]) ∧
    engineCloseDevToolsCalls (CloseDevTools 1 devToolsOpenWidget).2 = 2 ∧
    devToolsClosedEmissions (CloseDevTools 1 devToolsOpenWidget).2 = 2 := by
  decide

/-- The emitted signals of two traces run one after the other. -/
theorem emitted_append (a b : List Effect) : emitted (a ++ b) = emitted a ++ emitted b := by
  induction a with
  | nil => rfl
  | cons e a ih => cases e <;> simp [emitted, ih]

/-- After any call of CloseDevTools the dev-tools browser handle is null. -/
theorem CloseDevTools_clears (n : Nat) (s : CefWidget) :
    (CloseDevTools n s).1.dev_tools_browser_ = none := by
  cases n <;> cases h : s.dev_tools_browser_ <;> simp [CloseDevTools, h]

/-- A call of CloseDevTools that finds the handle null does nothing. -/
theorem CloseDevTools_of_null (n : Nat) (s : CefWidget)
    (h : s.dev_tools_browser_ = none) : CloseDevTools n s = (s, []) := by
  cases n <;> simp [CloseDevTools, h]

/-- A call of CloseDevTools whose engine call is not re-entered and that finds
the handle set makes one engine call and emits DevToolsClosed once. -/
theorem CloseDevTools_of_some (s : CefWidget) (d : BrowserId)
    (h : s.dev_tools_browser_ = some d) :
    CloseDevTools 0 s =
      ({ s with dev_tools_browser_ := none },
        [.engine d .host .CloseDevTools, .emit s.self .DevToolsClosed]) := by
  simp [CloseDevTools, h]

/-- Over a sequence of AfterCreated events and CloseDevTools calls in which no
engine call is re-entered, each DevToolsClosed emission comes from a call that
found the handle set, and each such call needs the initial handle or an
AfterCreated event before it. -/
theorem devToolsClosed_counted (es : List DevToolsEvent) (s : CefWidget)
    (hseq : es.all DevToolsEvent.notReentered = true) :
    devToolsClosedEmissions (runDevToolsEvents es s).2 = closesThatFoundBrowser es s ∧
    devToolsClosedEmissions (runDevToolsEvents es s).2 +
        (if (runDevToolsEvents es s).1.dev_tools_browser_.isSome then 1 else 0) ≤
      afterCreatedEvents es + (if s.dev_tools_browser_.isSome then 1 else 0) := by
  induction es generalizing s with
  | nil => simp [runDevToolsEvents, devToolsClosedEmissions, emitted, closesThatFoundBrowser]
  | cons e es ih =>
    simp only [List.all_cons, Bool.and_eq_true] at hseq
    obtain ⟨he, hes⟩ := hseq
    cases e with
    | AfterCreated b =>
      have h := ih (onDevToolsAfterCreated b s) hes
      simp only [runDevToolsEvents, runDevToolsEvent, closesThatFoundBrowser,
        afterCreatedEvents, List.nil_append]
      refine ⟨h.1, ?_⟩
      have h2 := h.2
      have hb : (if (onDevToolsAfterCreated b s).dev_tools_browser_.isSome then 1 else 0)
          ≤ 1 := by split <;> omega
      omega
    | CloseDevTools reenter =>
      cases reenter with
      | succ n => simp [DevToolsEvent.notReentered] at he
      | zero =>
        cases hd : s.dev_tools_browser_ with
        | none =>
          have h := ih s hes
          simp only [runDevToolsEvents, runDevToolsEvent, closesThatFoundBrowser,
            afterCreatedEvents, CloseDevTools_of_null 0 s hd, List.nil_append, hd]
          simpa [hd] using h
        | some d =>
          have h := ih { s with dev_tools_browser_ := none } hes
          simp only [runDevToolsEvents, runDevToolsEvent, closesThatFoundBrowser,
            afterCreatedEvents, CloseDevTools_of_some s d hd, hd]
          simp only [devToolsClosedEmissions, emitted_append] at h ⊢
          simp [emitted] at h ⊢
          omega

/-- After any call of CloseDevTools the dev-tools browser handle is null; a
call that finds it null makes no engine call, emits nothing and changes
nothing, so a second call in a row is a no-op. Over a sequence of AfterCreated
events and CloseDevTools calls in which no engine call is re-entered, on a
widget that starts with a null dev-tools browser handle, the number of
DevToolsClosed emissions equals the number of CloseDevTools calls that found
the handle set and is at most the number of AfterCreated events. -/
theorem CloseDevTools_idempotent_and_counted_of_sequential (es : List DevToolsEvent)
    (s : CefWidget) (h : s.dev_tools_browser_ = none)
    (hseq : es.all DevToolsEvent.notReentered = true) :
    (∀ (n : Nat) (s0 : CefWidget), (CloseDevTools n s0).1.dev_tools_browser_ = none) ∧
    (∀ (n : Nat) (s0 : CefWidget), s0.dev_tools_browser_ = none →
      CloseDevTools n s0 = (s0, [])) ∧
    (∀ (n m : Nat) (s0 : CefWidget),
      CloseDevTools m (CloseDevTools n s0).1 = ((CloseDevTools n s0).1, [])) ∧
    devToolsClosedEmissions (runDevToolsEvents es s).2 = closesThatFoundBrowser es s ∧
    devToolsClosedEmissions (runDevToolsEvents es s).2 ≤ afterCreatedEvents es := by
  refine ⟨CloseDevTools_clears, CloseDevTools_of_null, ?_,
    (devToolsClosed_counted es s hseq).1, ?_⟩
  · intro n m s0
    exact CloseDevTools_of_null m _ (CloseDevTools_clears n s0)
  · have h2 := (devToolsClosed_counted es s hseq).2
    simp only [h, Option.isSome_none] at h2
    simp at h2
    omega

/-- The sequential theorem on the sequence close, created 9, close, close,
created 8 from the live widget: the emissions equal the calls that found the
handle set and are at most the two AfterCreated events. -/
theorem CloseDevTools_idempotent_and_counted_of_sequential_witness :
    liveWidget.dev_tools_browser_ = none ∧
    devToolsClosedEmissions (runDevToolsEvents
      [.CloseDevTools 0, .AfterCreated (some 9), .CloseDevTools 0, .CloseDevTools 0,
        .AfterCreated (some 8)] liveWidget).2 =
      closesThatFoundBrowser
        [.CloseDevTools 0, .AfterCreated (some 9), .CloseDevTools 0, .CloseDevTools 0,
          .AfterCreated (some 8)] liveWidget ∧
    devToolsClosedEmissions (runDevToolsEvents
      [.CloseDevTools 0, .AfterCreated (some 9), .CloseDevTools 0, .CloseDevTools 0,
        .AfterCreated (some 8)] liveWidget).2 ≤ 2 :=
  have w := CloseDevTools_idempotent_and_counted_of_sequential
    [.CloseDevTools 0, .AfterCreated (some 9), .CloseDevTools 0, .CloseDevTools 0,
      .AfterCreated (some 8)] liveWidget rfl (by decide)
  ⟨rfl, w.2.2.2.1, w.2.2.2.2⟩

/-- C8 fails when the Closed signal is delivered during the engine call: on the
widget whose dev tools were shown (dev-tools browser handle null), the
sequence AfterCreated(9), CloseDevTools has one AfterCreated event, yet the
CloseDevTools call and the nested call it triggers both find the handle set
and DevToolsClosed is emitted twice, more often than AfterCreated events
occurred. -/
theorem nested_close_exceeds_created_count :
    devToolsShownWidget.dev_tools_browser_ = none ∧
    afterCreatedEvents [.AfterCreated (some 9), .CloseDevTools 1] = 1 ∧
    (runDevToolsEvents [.AfterCreated (some 9), .CloseDevTools 1] devToolsShownWidget).2 =
      [.engine 9 .host .CloseDevTools, .engine 9 .host .CloseDevTools,
        .emit 1 .DevToolsClosed, .emit 1 .DevToolsClosed] ∧
    devToolsClosedEmissions
      (runDevToolsEvents [.AfterCreated (some 9), .CloseDevTools 1] devToolsShownWidget).2 =
        2 ∧
    ¬ (devToolsClosedEmissions
      (runDevToolsEvents [.AfterCreated (some 9), .CloseDevTools 1] devToolsShownWidget).2 ≤
        afterCreatedEvents [.AfterCreated (some 9), .CloseDevTools 1]) := by
  decide

/-! ## Opening the dev tools -/

/-- Running a slot several times keeps the dev-tools setup and makes no engine
ShowDevTools call, when one run of the slot does. -/
theorem repeatCall_keeps (f : CefWidget → Run)
    (hf : ∀ s, SameSetup s (f s).1 ∧ showDevToolsCalls (f s).2 = [])
    (k : Nat) (s : CefWidget) :
    SameSetup s (repeatCall f k s).1 ∧ showDevToolsCalls (repeatCall f k s).2 = [] := by
  induction k generalizing s with
  | zero => simp [repeatCall, SameSetup, showDevToolsCalls]
  | succ k ih =>
    obtain ⟨h1, h2⟩ := hf s
    obtain ⟨h3, h4⟩ := ih (f s).1
    simp only [showDevToolsCalls] at h2 h4
    simp only [repeatCall, showDevToolsCalls, List.filter_append, h2, h4, List.append_nil,
      and_true]
    unfold SameSetup at h1 h3 ⊢
    obtain ⟨a1, a2, a3, a4, a5, a6⟩ := h1
    obtain ⟨b1, b2, b3, b4, b5, b6⟩ := h3
    exact ⟨b1.trans a1, b2.trans a2, b3.trans a3, b4.trans a4, b5.trans a5, b6.trans a6⟩

/-- CloseDevTools, re-entered or not, keeps the dev-tools handler, its
connections and the keyboard forwarding, and makes no engine ShowDevTools call. -/
theorem CloseDevTools_keeps (n : Nat) (s : CefWidget) :
    SameSetup s (CloseDevTools n s).1 ∧ showDevToolsCalls (CloseDevTools n s).2 = [] := by
  induction n generalizing s with
  | zero =>
    cases h : s.dev_tools_browser_ <;>
      simp [CloseDevTools, h, SameSetup, showDevToolsCalls, Effect.isShowDevTools]
  | succ n ih =>
    cases h : s.dev_tools_browser_ with
    | none => simp [CloseDevTools, h, SameSetup, showDevToolsCalls]
    | some d =>
      obtain ⟨h1, h2⟩ := repeatCall_keeps (CloseDevTools n) ih (closedSlots s) s
      simp only [showDevToolsCalls] at h2
      simp only [CloseDevTools, h, showDevToolsCalls, List.filter_append, h2]
      refine ⟨?_, by simp [Effect.isShowDevTools]⟩
      unfold SameSetup at h1 ⊢
      exact h1

/-- Once the dev-tools handler exists, a call of ShowDevTools changes no state
and makes exactly one engine call, ShowDevTools with that handler. -/
theorem ShowDevTools_of_handler (widg : CefBaseWidget) (inspect_at : QPoint)
    (s : CefWidget) (b : BrowserId) (h : HandlerId) (hb : s.browser_ = some b)
    (hh : s.dev_tools_handler_ = some h) :
    ShowDevTools widg inspect_at s = (s, [showDevToolsCall b widg h inspect_at]) := by
  simp [ShowDevTools, hb, hh]

/-- Once the dev-tools handler exists, any call keeps the setup, and its engine
ShowDevTools calls are the one of ShowDevTools itself, with that handler. -/
theorem runCall_keeps (c : WidgetCall) (s : CefWidget) (b : BrowserId) (h : HandlerId)
    (hb : s.browser_ = some b) (hh : s.dev_tools_handler_ = some h) :
    SameSetup s (runCall c s).1 ∧
    showDevToolsCalls (runCall c s).2 =
      (showDevToolsArgs [c]).map (fun a => showDevToolsCall b a.1 h a.2) := by
  cases c with
  | ShowDevTools widg inspect_at =>
    simp [runCall, ShowDevTools_of_handler widg inspect_at s b h hb hh, SameSetup,
      showDevToolsArgs, showDevToolsCalls, showDevToolsCall, Effect.isShowDevTools]
  | CloseDevTools reenter =>
    simpa [runCall, showDevToolsArgs] using CloseDevTools_keeps reenter s
  | AfterCreated d =>
    simp [runCall, onDevToolsAfterCreated, SameSetup, showDevToolsArgs, showDevToolsCalls]
  | LoadEnd frameIsMain code =>
    cases frameIsMain <;>
      simp [runCall, onDevToolsLoadEnd, SameSetup, showDevToolsArgs, showDevToolsCalls,
        Effect.isShowDevTools]

/-- The arguments of the ShowDevTools calls of a sequence, call by call. -/
theorem showDevToolsArgs_cons (c : WidgetCall) (cs : List WidgetCall) :
    showDevToolsArgs (c :: cs) = showDevToolsArgs [c] ++ showDevToolsArgs cs := by
  cases c <;> simp [showDevToolsArgs]

/-- Once the dev-tools handler exists, any sequence of calls keeps the setup,
and its engine ShowDevTools calls are those of its ShowDevTools calls, one
each, in order, all with that handler. -/
theorem runCalls_keeps (cs : List WidgetCall) (s : CefWidget) (b : BrowserId)
    (h : HandlerId) (hb : s.browser_ = some b) (hh : s.dev_tools_handler_ = some h) :
    SameSetup s (runCalls cs s).1 ∧
    showDevToolsCalls (runCalls cs s).2 =
      (showDevToolsArgs cs).map (fun a => showDevToolsCall b a.1 h a.2) := by
  induction cs generalizing s with
  | nil => simp [runCalls, SameSetup, showDevToolsArgs, showDevToolsCalls]
  | cons c cs ih =>
    obtain ⟨h1, h2⟩ := runCall_keeps c s b h hb hh
    have k1 := h1
    unfold SameSetup at k1
    obtain ⟨a1, a2, a3, a4, a5, a6⟩ := k1
    obtain ⟨h3, h4⟩ := ih (runCall c s).1 (a2.trans hb) (a3.trans hh)
    have k3 := h3
    unfold SameSetup at k3
    obtain ⟨b1, b2, b3, b4, b5, b6⟩ := k3
    constructor
    · simp only [runCalls]
      unfold SameSetup
      exact ⟨b1.trans a1, b2.trans a2, b3.trans a3, b4.trans a4, b5.trans a5, b6.trans a6⟩
    · simp only [showDevToolsCalls] at h2 h4
      rw [showDevToolsArgs_cons]
      simp only [runCalls, showDevToolsCalls, List.filter_append, h2, h4, List.map_append]

/-- C9: on a widget with a non-null browser and no dev-tools handler yet, over a
first ShowDevTools call followed by any sequence of ShowDevTools, CloseDevTools
(re-entered or not), AfterCreated and LoadEnd calls: exactly one handler is
created, by the first call, and it is still the dev-tools handler at the end;
the connections AfterCreated, LoadEnd and Closed and the keyboard forwarding
are installed once, for the widget of the first call; and the engine
ShowDevTools calls are exactly one per ShowDevTools call, in order, each with
that handler, the window of its widget and its inspect point unchanged. -/
theorem ShowDevTools_creates_handler_once (s : CefWidget) (b : BrowserId)
    (hb : s.browser_ = some b) (hh : s.dev_tools_handler_ = none)
    (widg : CefBaseWidget) (inspect_at : QPoint) (rest : List WidgetCall) :
    (runCalls (.ShowDevTools widg inspect_at :: rest) s).1.dev_tools_handler_ =
      some s.handlers_created ∧
    (runCalls (.ShowDevTools widg inspect_at :: rest) s).1.handlers_created =
      s.handlers_created + 1 ∧
    (runCalls (.ShowDevTools widg inspect_at :: rest) s).1.connections =
      s.connections ++
        [⟨s.handlers_created, .AfterCreated, s.self⟩, ⟨s.handlers_created, .LoadEnd, s.self⟩,
          ⟨s.handlers_created, .Closed, s.self⟩] ∧
    (runCalls (.ShowDevTools widg inspect_at :: rest) s).1.keyboard_forwards =
      s.keyboard_forwards ++ [(widg.id, s.handlers_created)] ∧
    showDevToolsCalls (runCalls (.ShowDevTools widg inspect_at :: rest) s).2 =
      ((widg, inspect_at) :: showDevToolsArgs rest).map
        (fun a => .engine b .host
          (.ShowDevTools a.1.WindowInfo s.handlers_created CefBrowserSettings.default
            ⟨a.2.x, a.2.y⟩)) := by
  have hfirst : ShowDevTools widg inspect_at s =
      ({ s with
          dev_tools_handler_ := some s.handlers_created
          handlers_created := s.handlers_created + 1
          keyboard_forwards := s.keyboard_forwards ++ [(widg.id, s.handlers_created)]
          connections := s.connections ++
            [⟨s.handlers_created, .AfterCreated, s.self⟩,
              ⟨s.handlers_created, .LoadEnd, s.self⟩,
              ⟨s.handlers_created, .Closed, s.self⟩] },
        [showDevToolsCall b widg s.handlers_created inspect_at]) := by
    simp [ShowDevTools, hb, hh]
  obtain ⟨h1, h2⟩ := runCalls_keeps rest (ShowDevTools widg inspect_at s).1 b
    s.handlers_created (by rw [hfirst]; exact hb) (by rw [hfirst])
  unfold SameSetup at h1
  obtain ⟨_, _, a3, a4, a5, a6⟩ := h1
  simp only [showDevToolsCalls] at h2
  simp only [runCalls, runCall, showDevToolsCalls, List.filter_append, h2]
  rw [hfirst] at a3 a4 a5 a6 ⊢
  refine ⟨a3, a4, a5, a6, ?_⟩
  simp [showDevToolsCall, Effect.isShowDevTools]

/-- C9 at the live widget: ShowDevTools, the dev-tools browser is created, the
dev tools are closed with a nested Closed signal, ShowDevTools again for
another widget. One handler (number 1) exists at the end, forwarding is
installed for the first widget only, and both engine calls carry handler 1. -/
theorem ShowDevTools_creates_handler_once_witness :
    liveWidget.browser_ = some 7 ∧ liveWidget.dev_tools_handler_ = none ∧
    (runCalls [.ShowDevTools ⟨2, 5⟩ ⟨3, 4⟩, .AfterCreated (some 9), .CloseDevTools 1,
      .ShowDevTools ⟨6, 8⟩ ⟨-1, 0⟩] liveWidget).1.dev_tools_handler_ = some 1 ∧
    (runCalls [.ShowDevTools ⟨2, 5⟩ ⟨3, 4⟩, .AfterCreated (some 9), .CloseDevTools 1,
      .ShowDevTools ⟨6, 8⟩ ⟨-1, 0⟩] liveWidget).1.keyboard_forwards = [(2, 1)] ∧
    showDevToolsCalls (runCalls [.ShowDevTools ⟨2, 5⟩ ⟨3, 4⟩, .AfterCreated (some 9),
      .CloseDevTools 1, .ShowDevTools ⟨6, 8⟩ ⟨-1, 0⟩] liveWidget).2 =
      [.engine 7 .host (.ShowDevTools 5 1 CefBrowserSettings.default ⟨3, 4⟩),
        .engine 7 .host (.ShowDevTools 8 1 CefBrowserSettings.default ⟨-1, 0⟩)] :=
  have w := ShowDevTools_creates_handler_once liveWidget 7 rfl rfl ⟨2, 5⟩ ⟨3, 4⟩
    [.AfterCreated (some 9), .CloseDevTools 1, .ShowDevTools ⟨6, 8⟩ ⟨-1, 0⟩]
  ⟨rfl, rfl, w.1, w.2.2.2.1, w.2.2.2.2⟩

end doogie
